import Mathlib

/-!
A shallow embedding of the `tvanantwerp/scraper-example` pipeline
(`index.ts` plus the accompanying tutorial text) in Lean 4, together with
theorems settling the specification's claims against the code.

Modelling conventions:
* Machine strings are Lean `String`s; `Buffer.from(url).toString('base64')`
  is embedded as UTF-8 encoding followed by RFC 4648 base64 with padding.
* The file system is an explicit value: a list of existing directories and
  an association list from file path to content (later writes shadow
  earlier ones).  `fs.writeFile` fails (Node `ENOENT`) when the parent
  directory of the target path does not exist; `mkdirSync` throws (Node
  `EEXIST`) when the target already exists.
* The network is a function `String → Option String`: `none` models a
  request whose promise was rejected (axios error), which `fetchPage`
  catches and turns into `undefined`.
* jsdom's parser is an arbitrary parameter `parse : Option String → DomNode`
  (the library is external to the repository; the claims never depend on
  how it parses, only on which input it is given).  `new JSDOM(x)` on the
  possibly-`undefined` string `x` is `parse x`.
* The resolver's return channel is embedded as `Option DomNode` so that the
  spec's `Document | Absent` contract is expressible; the code's
  `return dom.window.document` is `some (parse _)`.
-/

namespace Scraper

/-! ## Bytes and base64 (`Buffer.from(url).toString('base64')`) -/

/-- UTF-8 encoding of a single character, as a list of byte values. -/
def utf8Bytes (c : Char) : List Nat :=
  let n := c.toNat
  if n < 128 then [n]
  else if n < 2048 then
    [192 + n / 64, 128 + n % 64]
  else if n < 65536 then
    [224 + n / 4096, 128 + n / 64 % 64, 128 + n % 64]
  else
    [240 + n / 262144, 128 + n / 4096 % 64, 128 + n / 64 % 64, 128 + n % 64]

/-- UTF-8 byte sequence of a string (what `Buffer.from(s)` holds). -/
def strBytes (s : String) : List Nat :=
  s.data.foldr (fun c acc => utf8Bytes c ++ acc) []

/-- The 64 digits of the standard base64 alphabet, in order. -/
def b64Digits : String :=
  "ABCDEFGHIJKLMNOPQRSTUVWXYZabcdefghijklmnopqrstuvwxyz0123456789+/"

/-- The base64 digit for a 6-bit value. -/
def b64Char (n : Nat) : Char := b64Digits.data.getD n 'A'

/-- RFC 4648 base64 with `=` padding, grouping bytes three at a time. -/
def base64Go : List Nat → List Char
  | [] => []
  | [a] => [b64Char (a / 4), b64Char (a % 4 * 16), '=', '=']
  | [a, b] => [b64Char (a / 4), b64Char (a % 4 * 16 + b / 16), b64Char (b % 16 * 4), '=']
  | a :: b :: c :: rest =>
    b64Char (a / 4) :: b64Char (a % 4 * 16 + b / 16) ::
      b64Char (b % 16 * 4 + c / 64) :: b64Char (c % 64) :: base64Go rest

/-- Embedding of `Buffer.from(s).toString('base64')`. -/
def base64Encode (s : String) : String := String.mk (base64Go (strBytes s))

/-! ## File-system model -/

/-- A snapshot of the file system: existing directories, and files as an
association list from path to content (later writes shadow earlier ones). -/
structure FS where
  dirs : List String
  files : List (String × String)
deriving Repr, DecidableEq

/-- Embedding of `existsSync` on a file path. -/
def FS.existsFile (fs : FS) (p : String) : Bool :=
  (fs.files.lookup p).isSome

/-- Embedding of `readFile`: `some` content when the file exists. -/
def FS.readFile (fs : FS) (p : String) : Option String :=
  fs.files.lookup p

/-- Parent directory of a path: everything before the last `/`. -/
def dirOf (p : String) : String :=
  String.mk (((p.data.reverse.dropWhile fun c => c != '/').drop 1).reverse)

/-- Embedding of `writeFile p content`: succeeds (flag `true`) only when the parent
directory of `p` exists, mirroring Node's `ENOENT` rejection otherwise.
On failure the file system is unchanged. -/
def FS.writeFile (fs : FS) (p content : String) : FS × Bool :=
  if fs.dirs.contains (dirOf p) then
    ({ fs with files := (p, content) :: fs.files }, true)
  else
    (fs, false)

/-! ## DOM model and jsdom -/

/-- An element node: tag name, class list, attributes, text content
(`textContent`, stored directly), and children.  A `Document` is modelled
by its root node. -/
inductive DomNode where
  | elem (tag : String) (classes : List String) (attrs : List (String × String))
      (text : String) (children : List DomNode)
deriving Repr

/-- Tag name of a node. -/
def DomNode.tag : DomNode → String
  | .elem t _ _ _ _ => t

/-- Class list of a node. -/
def DomNode.classes : DomNode → List String
  | .elem _ c _ _ _ => c

/-- Text content of a node (`HTMLAnchorElement.text` is `textContent`). -/
def DomNode.text : DomNode → String
  | .elem _ _ _ x _ => x

/-- Children of a node. -/
def DomNode.children : DomNode → List DomNode
  | .elem _ _ _ _ ch => ch

/-- The `href` attribute of a node (empty when absent).  The `href` IDL
attribute is modelled by the raw attribute value. -/
def DomNode.href (n : DomNode) : String :=
  match n with
  | .elem _ _ attrs _ _ => (attrs.lookup "href").getD ""

mutual
/-- All nodes of a tree in pre-order, i.e. document order. -/
def DomNode.preorder : DomNode → List DomNode
  | .elem t c a x ch => .elem t c a x ch :: preorderList ch

/-- Pre-order traversal of a forest, left to right. -/
def preorderList : List DomNode → List DomNode
  | [] => []
  | n :: ns => n.preorder ++ preorderList ns
end

/-- Does a node match the selector `a.titlelink`? -/
def DomNode.matchesTitlelink (n : DomNode) : Bool :=
  n.tag == "a" && n.classes.contains "titlelink"

/-- Embedding of `document.querySelectorAll('a.titlelink')`: the matching elements of the
document in document order. -/
def querySelectorAllTitlelink (document : DomNode) : List DomNode :=
  document.preorder.filter DomNode.matchesTitlelink

/-! ## The code of `index.ts` -/

/-- Cache file path: `path.resolve(__dirname, '.cache/<base64(url)>.html')`. -/
def cachePath (dirname url : String) : String :=
  dirname ++ "/.cache/" ++ base64Encode url ++ ".html"

/-- Embedding of `fetchPage(url)`: the network outcome; a rejected request is caught,
logged, and becomes `undefined` (`none`). -/
def fetchPage (net : String → Option String) (url : String) : Option String :=
  net url

/-- JavaScript truthiness of the possibly-`undefined` string `HTMLData`:
`undefined` and the empty string are falsy. -/
def truthy : Option String → Bool
  | none => false
  | some s => s != ""

/-- Result of one `fetchFromWebOrCache` call: the returned document
(always `some`, see the theorems), the file system afterwards, and how many
network fetches and cache-file reads the call performed. -/
structure ResolveOut where
  doc : Option DomNode
  fs : FS
  fetches : Nat
  cacheReads : Nat

/-- Embedding of `fetchFromWebOrCache(url, ignoreCache)` from `index.ts`:
if the cache may be used and the cache file exists, read it and parse it;
otherwise fetch, write the fetched text to the cache file when caching is
on and the text is truthy (an unawaited, fire-and-forget write), and parse
the possibly-`undefined` fetched text.  `index.ts` never creates the
`.cache` directory. -/
def fetchFromWebOrCache (parse : Option String → DomNode)
    (net : String → Option String) (dirname : String) (fs : FS)
    (url : String) (ignoreCache : Bool) : ResolveOut :=
  if !ignoreCache && fs.existsFile (cachePath dirname url) then
    let HTMLData := fs.readFile (cachePath dirname url)
    { doc := some (parse HTMLData), fs := fs, fetches := 0, cacheReads := 1 }
  else
    let HTMLData := fetchPage net url
    let fs' :=
      if !ignoreCache && truthy HTMLData then
        (fs.writeFile (cachePath dirname url) (HTMLData.getD "")).1
      else fs
    { doc := some (parse HTMLData), fs := fs', fetches := 1, cacheReads := 0 }

/-- One extracted record: `{ title: link.text, url: link.href }`. -/
structure Record where
  title : String
  url : String
deriving Repr, DecidableEq

/-- Embedding of `extractData(document)` from `index.ts`: map every `a.titlelink`
element, in document order, to its text and href. -/
def extractData (document : DomNode) : List Record :=
  let writingLinks := querySelectorAllTitlelink document
  writingLinks.map fun link => { title := link.text, url := link.href }

/-! ## `saveData` and `getData` -/

/-- Minimal string escaping of `JSON.stringify` for the fields we emit. -/
def jsonEscape (s : String) : String :=
  String.mk (s.data.foldr
    (fun c acc =>
      if c = '"' ∨ c = '\\' then '\\' :: c :: acc else c :: acc) [])

/-- Embedding of `JSON.stringify` for one record. -/
def jsonRecord (r : Record) : String :=
  "\x7b\"title\":\"" ++ jsonEscape r.title ++ "\",\"url\":\"" ++
    jsonEscape r.url ++ "\"\x7d"

/-- Embedding of `JSON.stringify` for the record array. -/
def jsonStringify (rs : List Record) : String :=
  "[" ++ String.intercalate "," (rs.map jsonRecord) ++ "]"

/-- Artifact path: `resolve(__dirname, 'data/<filename>.json')`. -/
def dataPath (dirname filename : String) : String :=
  dirname ++ "/data/" ++ filename ++ ".json"

/-- Result of `saveData`: the file system afterwards, whether the artifact
write's promise resolved (`writeOk`), and the error, if any, that reaches
`saveData`'s caller synchronously (`caller`). -/
structure SaveOut where
  fs : FS
  writeOk : Bool
  caller : Option String

/-- Embedding of `saveData(filename, data)` from `index.ts` (with `resolve` and
`mkdirSync` bound as in the tutorial's listing, since `index.ts` omits
those imports): check for `__dirname/data`, but create `data` relative to
the process working directory when the check fails (`mkdirSync('data')`
resolves against `cwd`, and throws `EEXIST` when `cwd/data` already
exists); then issue the artifact write without awaiting or returning its
promise, so no write failure reaches the caller. -/
def saveData (dirname cwd : String) (fs : FS) (filename : String)
    (data : List Record) : SaveOut :=
  if !(fs.dirs.contains (dirname ++ "/data")) then
    if fs.dirs.contains (cwd ++ "/data") then
      { fs := fs, writeOk := false, caller := some "EEXIST: data" }
    else
      let fs1 : FS := { fs with dirs := (cwd ++ "/data") :: fs.dirs }
      let w := fs1.writeFile (dataPath dirname filename) (jsonStringify data)
      { fs := w.1, writeOk := w.2, caller := none }
  else
    let w := fs.writeFile (dataPath dirname filename) (jsonStringify data)
    { fs := w.1, writeOk := w.2, caller := none }

/-- The URL hard-wired into `getData`. -/
def hnURL : String := "https://news.ycombinator.com/"

/-- Result of a full `getData` run. -/
structure RunOut where
  fs : FS
  fetches : Nat
  cacheReads : Nat
  writeOk : Bool
  caller : Option String

/-- Embedding of `getData()` from `index.ts`: resolve the Hacker News front page with
`ignoreCache = true`, extract, and save under `hacker-news-links`.  The
resolver always returns a document, so the `getD` default is dead code. -/
def getData (parse : Option String → DomNode) (net : String → Option String)
    (dirname cwd : String) (fs : FS) : RunOut :=
  let r := fetchFromWebOrCache parse net dirname fs hnURL true
  let document := r.doc.getD (parse none)
  let data := extractData document
  let s := saveData dirname cwd r.fs "hacker-news-links" data
  { fs := s.fs, fetches := r.fetches, cacheReads := r.cacheReads,
    writeOk := s.writeOk, caller := s.caller }

/-! ## Pattern extraction (tutorial, "Extracting Data with Regular
Expressions") -/

/-- JavaScript `\w`: ASCII letters, digits, underscore. -/
def isWordChar (c : Char) : Bool :=
  c.isAlpha || c.isDigit || c == '_'

/-- JavaScript `\d`. -/
def isDigitChar (c : Char) : Bool := c.isDigit

/-- Try to match `lit` followed by one or more `p`-characters at the head
of `cs`; on success return (whole match, first capture group), i.e. the
`[0]` and `[1]` entries of a JavaScript `String.match` result. -/
def matchAt (lit : List Char) (p : Char → Bool) (cs : List Char) :
    Option (String × String) :=
  if cs.take lit.length = lit then
    match (cs.drop lit.length).takeWhile p with
    | [] => none
    | g => some (String.mk (lit ++ g), String.mk g)
  else none

/-- Embedding of `text.match(/lit(p+)/)`: the leftmost match, as (whole match, first
capture group), or `none` when the pattern does not match. -/
def reMatch (lit : List Char) (p : Char → Bool) : List Char → Option (String × String)
  | [] => matchAt lit p []
  | c :: rest =>
    match matchAt lit p (c :: rest) with
    | some r => some r
    | none => reMatch lit p rest

/-- The contrived fixture's text content from the tutorial. -/
def pokemonFixture : String := "Name: Pikachu<br/>Number: 25<br/>"

/-- The value of `rawPokemonHTML.match(/Name: (\w+)/)` on the fixture's text. -/
def nameMatch : Option (String × String) :=
  reMatch "Name: ".data isWordChar pokemonFixture.data

/-- The value of `rawPokemonHTML.match(/Number: (\d+)/)` on the fixture's text. -/
def numMatch : Option (String × String) :=
  reMatch "Number: ".data isDigitChar pokemonFixture.data

/-- The code's `const name = rawPokemonHTML.match(/Name: (\w+)/)[0]` — it takes
index `[0]`, the whole match. -/
def extractedName : Option String := nameMatch.map fun r => r.fst

/-- The code's `const num = rawPokemonHTML.match(/Number: (\d+)/)[0]`. -/
def extractedNum : Option String := numMatch.map fun r => r.fst

/-! ## Concrete instances used by witnesses and counterexamples -/

/-- A concrete parse function: every input becomes a bare root element. -/
def trivialParse : Option String → DomNode := fun _ => .elem "html" [] [] "" []

/-- A network where every request fails. -/
def noNet : String → Option String := fun _ => none

/-- A network where every request succeeds with a fixed page body. -/
def okNet : String → Option String := fun _ => some "<html></html>"

/-! ## Helper lemmas -/

theorem lookup_cons_ne {p q c : String} {l : List (String × String)}
    (h : p ≠ q) : ((q, c) :: l).lookup p = l.lookup p := by
  simp [List.lookup, beq_eq_false_iff_ne.mpr h]

theorem string_data_inj {s t : String} (h : s.data = t.data) : s = t := by
  cases s; cases t; exact congrArg String.mk h

theorem append_right_ne {a b : String} (h : a ≠ b) (t : String) :
    a ++ t ≠ b ++ t := by
  intro he
  apply h
  have hd := congrArg String.data he
  simp only [String.data_append] at hd
  exact string_data_inj (List.append_cancel_right hd)

theorem b64Char_mem (n : Nat) : b64Char n ∈ b64Digits.data := by
  have h : b64Char n = (b64Digits.data.get? n).getD 'A' := rfl
  rw [h]
  cases hg : b64Digits.data.get? n with
  | none => simp only [Option.getD]; decide
  | some c => simpa [Option.getD] using List.get?_mem hg

theorem mem_base64Go : ∀ (bs : List Nat), ∀ c ∈ base64Go bs, c ∈ b64Digits.data ∨ c = '='
  | [] => by simp [base64Go]
  | [a] => by
    intro c hc
    simp only [base64Go, List.mem_cons, List.not_mem_nil, or_false] at hc
    rcases hc with h | h | h | h
    · exact Or.inl (h ▸ b64Char_mem _)
    · exact Or.inl (h ▸ b64Char_mem _)
    · exact Or.inr h
    · exact Or.inr h
  | [a, b] => by
    intro c hc
    simp only [base64Go, List.mem_cons, List.not_mem_nil, or_false] at hc
    rcases hc with h | h | h | h
    · exact Or.inl (h ▸ b64Char_mem _)
    · exact Or.inl (h ▸ b64Char_mem _)
    · exact Or.inl (h ▸ b64Char_mem _)
    · exact Or.inr h
  | a :: b :: d :: rest => by
    intro c hc
    simp only [base64Go, List.mem_cons] at hc
    rcases hc with h | h | h | h | h
    · exact Or.inl (h ▸ b64Char_mem _)
    · exact Or.inl (h ▸ b64Char_mem _)
    · exact Or.inl (h ▸ b64Char_mem _)
    · exact Or.inl (h ▸ b64Char_mem _)
    · exact mem_base64Go rest c h

theorem dirOf_concat (d f : String) (hf : '/' ∉ f.data) :
    dirOf (d ++ "/" ++ f) = d := by
  unfold dirOf
  rw [String.data_append, String.data_append]
  have h1 : (d.data ++ "/".data ++ f.data).reverse
      = f.data.reverse ++ ('/' :: d.data.reverse) := by
    simp [List.reverse_append]
  rw [h1]
  have hall : f.data.reverse.dropWhile (fun c => c != '/') = [] := by
    rw [List.dropWhile_eq_nil_iff]
    intro c hc
    have hm : c ∈ f.data := List.mem_reverse.mp hc
    simp only [bne_iff_ne, ne_eq, Decidable.not_not]
    intro hc'
    exact hf (hc' ▸ hm)
  have h2 : (f.data.reverse ++ ('/' :: d.data.reverse)).dropWhile (fun c => c != '/')
      = '/' :: d.data.reverse := by
    rw [List.dropWhile_append, hall]
    simp [List.dropWhile_cons]
  rw [h2]
  simp

theorem dataPath_assoc (dirname filename : String) :
    dataPath dirname filename = (dirname ++ "/data") ++ "/" ++ (filename ++ ".json") := by
  apply string_data_inj
  simp [dataPath, String.data_append, List.append_assoc]

theorem dirOf_dataPath (dirname filename : String) (h : '/' ∉ filename.data) :
    dirOf (dataPath dirname filename) = dirname ++ "/data" := by
  rw [dataPath_assoc]
  apply dirOf_concat
  rw [String.data_append]
  intro hmem
  rcases List.mem_append.mp hmem with hm | hm
  · exact h hm
  · simp at hm

/-- When the results-directory check fails, the working directory differs
from the module directory, and neither `data` directory exists yet,
`saveData` creates `cwd/data` and the artifact write into the still-missing
`dirname/data` fails; the caller observes no error. -/
theorem saveData_missing_dir_eq (dirname cwd : String) (fs : FS)
    (filename : String) (data : List Record)
    (h1 : (dirname ++ "/data") ∉ fs.dirs)
    (h2 : (cwd ++ "/data") ∉ fs.dirs)
    (h3 : cwd ≠ dirname)
    (h4 : '/' ∉ filename.data) :
    saveData dirname cwd fs filename data
      = { fs := { fs with dirs := (cwd ++ "/data") :: fs.dirs },
          writeOk := false, caller := none } := by
  have hne : (dirname ++ "/data") ≠ (cwd ++ "/data") :=
    append_right_ne (fun he => h3 he.symm) "/data"
  unfold saveData FS.writeFile
  rw [dirOf_dataPath dirname filename h4]
  simp [h1, h2, hne]

theorem cachePath_ne_dataPath (dirname u fn : String) :
    cachePath dirname u ≠ dataPath dirname fn := by
  intro h
  have hd : (cachePath dirname u).data = (dataPath dirname fn).data := by rw [h]
  unfold cachePath dataPath at hd
  simp only [String.data_append, List.append_assoc] at hd
  have h2 := List.append_cancel_left hd
  simp only [List.cons_append] at h2
  injection h2 with _ h3
  injection h3 with h4 _
  exact absurd h4 (by decide)

theorem saveData_readFile_preserved (dirname cwd : String) (fs : FS)
    (filename : String) (data : List Record) (p : String)
    (hp : p ≠ dataPath dirname filename) :
    (saveData dirname cwd fs filename data).fs.readFile p = fs.readFile p := by
  unfold saveData FS.writeFile
  split
  · split
    · rfl
    · dsimp only
      split
      · simpa [FS.readFile] using lookup_cons_ne hp
      · rfl
  · dsimp only
    split
    · simpa [FS.readFile] using lookup_cons_ne hp
    · rfl

/-! ## Claim theorems -/

/-- Claim C7: for every URL, calling `fetchFromWebOrCache` with
`ignoreCache = true` performs one network fetch regardless of cache state,
never reads from the cache, and leaves the file system unchanged. -/
theorem resolve_ignoreCache_always_fetches (parse : Option String → DomNode)
    (net : String → Option String) (dirname : String) (fs : FS) (url : String) :
    let r := fetchFromWebOrCache parse net dirname fs url true
    r.fetches = 1 ∧ r.cacheReads = 0 ∧ r.fs = fs :=
  ⟨rfl, rfl, rfl⟩

/-- Claim C10: `getData` resolves with `ignoreCache = true`, so a full
pipeline run performs one network fetch, zero cache reads, and leaves
every cache entry unchanged. -/
theorem getData_cache_frame (parse : Option String → DomNode)
    (net : String → Option String) (dirname cwd : String) (fs : FS) :
    let run := getData parse net dirname cwd fs
    run.fetches = 1 ∧ run.cacheReads = 0 ∧
      ∀ u, run.fs.readFile (cachePath dirname u) = fs.readFile (cachePath dirname u) := by
  refine ⟨rfl, rfl, fun u => ?_⟩
  exact saveData_readFile_preserved dirname cwd fs "hacker-news-links" _ _
    (cachePath_ne_dataPath dirname u "hacker-news-links")

/-- Claim C1 (amended): when the fetch fails and the cache has no entry for
the URL, `fetchFromWebOrCache` does not return Absent: it returns the
document parsed from the `undefined` fetch result, and no cache entry is
created or overwritten (the file system is unchanged). -/
theorem resolve_fetch_failure (parse : Option String → DomNode)
    (net : String → Option String) (dirname : String) (fs : FS) (url : String)
    (ic : Bool) (hfail : net url = none)
    (hmiss : fs.existsFile (cachePath dirname url) = false) :
    let r := fetchFromWebOrCache parse net dirname fs url ic
    r.doc = some (parse none) ∧ r.fs = fs := by
  unfold fetchFromWebOrCache fetchPage
  rw [hmiss, hfail]
  simp [truthy]

/-- Claim C1, counterexample to the claim as stated: at a concrete URL whose
fetch fails (and with an empty cache), the resolver does not return Absent —
the returned document is present. -/
theorem resolve_fetch_failure_cex :
    (fetchFromWebOrCache trivialParse noNet "/app" ⟨["/app"], []⟩
      "http://example.com/" false).doc.isSome = true := rfl

/-- A fresh fetch on a cache miss with truthy content and an existing cache
directory: the resolver fetches once and persists the page. -/
theorem resolve_miss_eq (parse : Option String → DomNode)
    (net : String → Option String) (dirname : String) (fs : FS) (url t : String)
    (hnet : net url = some t) (hne : t ≠ "")
    (hmiss : fs.existsFile (cachePath dirname url) = false)
    (hdir : fs.dirs.contains (dirOf (cachePath dirname url)) = true) :
    fetchFromWebOrCache parse net dirname fs url false
      = { doc := some (parse (some t)),
          fs := { fs with files := (cachePath dirname url, t) :: fs.files },
          fetches := 1, cacheReads := 0 } := by
  unfold fetchFromWebOrCache fetchPage FS.writeFile
  rw [hmiss, hnet, hdir]
  simp [truthy, hne]

/-- A call on a cache hit: the resolver reads the cached text and performs
no fetch and no write. -/
theorem resolve_hit_eq (parse : Option String → DomNode)
    (net : String → Option String) (dirname : String) (fs : FS) (url t : String)
    (hhit : fs.readFile (cachePath dirname url) = some t) :
    fetchFromWebOrCache parse net dirname fs url false
      = { doc := some (parse (some t)), fs := fs, fetches := 0, cacheReads := 1 } := by
  have hex : fs.existsFile (cachePath dirname url) = true := by
    unfold FS.existsFile
    unfold FS.readFile at hhit
    rw [hhit]
    rfl
  unfold fetchFromWebOrCache
  rw [hex, hhit]
  simp

/-- Claim C2: with caching enabled, starting from a cache miss with the
cache directory present and a successful fetch of nonempty content, two
successive calls perform exactly one network fetch in total, the second
call is a cache hit, and both calls return identical content. -/
theorem resolve_cache_roundtrip (parse : Option String → DomNode)
    (net : String → Option String) (dirname : String) (fs : FS) (url t : String)
    (hnet : net url = some t) (hne : t ≠ "")
    (hmiss : fs.existsFile (cachePath dirname url) = false)
    (hdir : fs.dirs.contains (dirOf (cachePath dirname url)) = true) :
    let r1 := fetchFromWebOrCache parse net dirname fs url false
    let r2 := fetchFromWebOrCache parse net dirname r1.fs url false
    r1.fetches = 1 ∧ r2.fetches = 0 ∧ r2.cacheReads = 1 ∧ r1.doc = r2.doc := by
  have e1 := resolve_miss_eq parse net dirname fs url t hnet hne hmiss hdir
  have ehit : ({ fs with files := (cachePath dirname url, t) :: fs.files } : FS).readFile
      (cachePath dirname url) = some t := by
    simp [FS.readFile, List.lookup]
  have e2 := resolve_hit_eq parse net dirname
    { fs with files := (cachePath dirname url, t) :: fs.files } url t ehit
  refine ⟨?_, ?_, ?_, ?_⟩
  · rw [e1]
  · show (fetchFromWebOrCache parse net dirname
      (fetchFromWebOrCache parse net dirname fs url false).fs url false).fetches = 0
    rw [e1, e2]
  · show (fetchFromWebOrCache parse net dirname
      (fetchFromWebOrCache parse net dirname fs url false).fs url false).cacheReads = 1
    rw [e1, e2]
  · show (fetchFromWebOrCache parse net dirname fs url false).doc
      = (fetchFromWebOrCache parse net dirname
        (fetchFromWebOrCache parse net dirname fs url false).fs url false).doc
    rw [e1, e2]

/-- Claim C2, witness at a concrete input. -/
theorem resolve_cache_roundtrip_witness :
    okNet "https://example.com/" = some "<html></html>" ∧
    ("<html></html>" : String) ≠ "" ∧
    FS.existsFile ⟨["/app/.cache"], []⟩ (cachePath "/app" "https://example.com/") = false ∧
    (FS.dirs ⟨["/app/.cache"], []⟩).contains
      (dirOf (cachePath "/app" "https://example.com/")) = true ∧
    (let r1 := fetchFromWebOrCache trivialParse okNet "/app" ⟨["/app/.cache"], []⟩
        "https://example.com/" false
     let r2 := fetchFromWebOrCache trivialParse okNet "/app" r1.fs
        "https://example.com/" false
     r1.fetches = 1 ∧ r2.fetches = 0 ∧ r2.cacheReads = 1 ∧ r1.doc = r2.doc) :=
  ⟨rfl, by decide, rfl, by decide,
    resolve_cache_roundtrip trivialParse okNet "/app" ⟨["/app/.cache"], []⟩
      "https://example.com/" "<html></html>" rfl (by decide) rfl (by decide)⟩

/-- Claim C3: `index.ts` omits the tutorial's `.cache`-creation step, so on
a fresh system (module directory `/app`, no `/app/.cache`) a successful
fetch leaves the file system unchanged: the cache write fails and no cache
entry and no directory is created. -/
theorem cache_write_without_mkdir :
    (fetchFromWebOrCache trivialParse okNet "/app" ⟨["/app"], []⟩
      "https://example.com/" false).fs = ⟨["/app"], []⟩ := rfl

/-- Claim C4: the tutorial's pattern extraction takes index `[0]` of the
match result — the whole match — so on the fixture it yields
`"Name: Pikachu"` and `"Number: 25"`, while the first capture group
(index `[1]`), which the spec designates as the field value, is
`"Pikachu"` and `"25"`. -/
theorem pattern_extraction_takes_whole_match :
    extractedName = some "Name: Pikachu" ∧ extractedNum = some "Number: 25" ∧
    nameMatch.map (fun r => r.snd) = some "Pikachu" ∧
    numMatch.map (fun r => r.snd) = some "25" :=
  ⟨rfl, rfl, rfl, rfl⟩

/-- Claim C5 (amended): `saveData` issues the artifact write without
awaiting or returning its promise, so a write failure reaches no caller:
when the results-directory check fails, the working directory differs from
the module directory, and no `data` directory exists yet, the artifact
write fails and the artifact is not created, yet the caller observes no
error — the same fire-and-forget treatment the cache write receives. -/
theorem saveData_failure_not_surfaced (dirname cwd : String) (fs : FS)
    (filename : String) (data : List Record)
    (h1 : (dirname ++ "/data") ∉ fs.dirs)
    (h2 : (cwd ++ "/data") ∉ fs.dirs)
    (h3 : cwd ≠ dirname)
    (h4 : '/' ∉ filename.data) :
    let out := saveData dirname cwd fs filename data
    out.writeOk = false ∧ out.caller = none ∧ out.fs.files = fs.files := by
  rw [saveData_missing_dir_eq dirname cwd fs filename data h1 h2 h3 h4]
  exact ⟨rfl, rfl, rfl⟩

/-- Claim C5, counterexample to the claim as stated: at a concrete state
the artifact write fails, yet `saveData` completes with no error surfaced
to its caller — the failure is not fatal to the run at the call-chain
level. -/
theorem saveData_failure_not_surfaced_cex :
    (saveData "/app" "/run" ⟨[], []⟩ "x" []).writeOk = false ∧
    (saveData "/app" "/run" ⟨[], []⟩ "x" []).caller = none := ⟨rfl, rfl⟩

/-- Claim C5, witness for the amended theorem at a concrete input. -/
theorem saveData_failure_not_surfaced_witness :
    ("/app" ++ "/data") ∉ FS.dirs ⟨[], []⟩ ∧
    ("/run" ++ "/data") ∉ FS.dirs ⟨[], []⟩ ∧
    ("/run" : String) ≠ "/app" ∧
    '/' ∉ ("links" : String).data ∧
    (let out := saveData "/app" "/run" ⟨[], []⟩ "links" []
     out.writeOk = false ∧ out.caller = none ∧ out.fs.files = FS.files ⟨[], []⟩) :=
  ⟨by decide, by decide, by decide, by decide,
    saveData_failure_not_surfaced "/app" "/run" ⟨[], []⟩ "links" []
      (by decide) (by decide) (by decide) (by decide)⟩

/-- Claim C6 (amended): the cache key derivation is a pure function of the
URL whose output draws only on the base64 alphabet (`A`–`Z`, `a`–`z`,
`0`–`9`, `+`, `/`) plus `=` padding; since `/` — a path separator — can
occur, the key is not safe as a single filename segment for every URL. -/
theorem cacheKey_base64_alphabet (url : String) :
    ∀ c ∈ (base64Encode url).data, c ∈ b64Digits.data ∨ c = '=' := by
  intro c hc
  exact mem_base64Go (strBytes url) c hc

/-- Claim C6, counterexample to the claim as stated: the base64 cache key
of the URL `http://a.b/??` contains `/`, which acts as a path separator in
a filename. -/
theorem cacheKey_contains_slash_cex :
    '/' ∈ (base64Encode "http://a.b/??").data := by decide

/-- Claim C6, witness for the amended theorem at a concrete input. -/
theorem cacheKey_base64_alphabet_witness :
    'a' ∈ (base64Encode "http://a.b/??").data ∧
    ('a' ∈ b64Digits.data ∨ 'a' = '=') :=
  ⟨by decide, cacheKey_base64_alphabet "http://a.b/??" 'a' (by decide)⟩

/-- Claim C8: when the `a.titlelink` elements of a document, in document
order, are exactly three anchors with pairwise distinct href/text pairs,
`extractData` returns exactly three records, in the same order, with
title = the anchor's text content and url = the anchor's href value. -/
theorem extractData_three_anchors (document a1 a2 a3 : DomNode)
    (h : querySelectorAllTitlelink document = [a1, a2, a3])
    (_hd1 : (a1.text, a1.href) ≠ (a2.text, a2.href))
    (_hd2 : (a1.text, a1.href) ≠ (a3.text, a3.href))
    (_hd3 : (a2.text, a2.href) ≠ (a3.text, a3.href)) :
    extractData document =
      [{ title := a1.text, url := a1.href },
       { title := a2.text, url := a2.href },
       { title := a3.text, url := a3.href }] := by
  unfold extractData
  rw [h]
  rfl

/-- A concrete anchor fixture. -/
def anchorA : DomNode := .elem "a" ["titlelink"] [("href", "https://x.test/1")] "First" []

/-- A concrete anchor fixture. -/
def anchorB : DomNode := .elem "a" ["titlelink"] [("href", "https://x.test/2")] "Second" []

/-- A concrete anchor fixture. -/
def anchorC : DomNode := .elem "a" ["titlelink"] [("href", "https://x.test/3")] "Third" []

/-- A document fixture holding the three anchors at different depths. -/
def fixtureDoc : DomNode :=
  .elem "html" [] [] "" [.elem "body" [] [] "" [anchorA, .elem "div" [] [] "" [anchorB], anchorC]]

/-- Claim C8, witness at the concrete fixture. -/
theorem extractData_three_anchors_witness :
    querySelectorAllTitlelink fixtureDoc = [anchorA, anchorB, anchorC] ∧
    extractData fixtureDoc =
      [{ title := "First", url := "https://x.test/1" },
       { title := "Second", url := "https://x.test/2" },
       { title := "Third", url := "https://x.test/3" }] :=
  ⟨rfl, extractData_three_anchors fixtureDoc anchorA anchorB anchorC rfl
    (by decide) (by decide) (by decide)⟩

/-- Claim C9: `saveData` checks for the results directory under the module
directory `dirname`, but creates `data` relative to the working directory
`cwd`; when the two differ (and neither `data` directory exists), the
directory it creates is not the parent directory the artifact write
targets, and the write fails. -/
theorem saveData_creates_wrong_directory (dirname cwd : String) (fs : FS)
    (filename : String) (data : List Record)
    (h1 : (dirname ++ "/data") ∉ fs.dirs)
    (h2 : (cwd ++ "/data") ∉ fs.dirs)
    (h3 : cwd ≠ dirname)
    (h4 : '/' ∉ filename.data) :
    let out := saveData dirname cwd fs filename data
    (cwd ++ "/data") ∈ out.fs.dirs ∧
    (cwd ++ "/data") ≠ dirOf (dataPath dirname filename) ∧
    out.writeOk = false := by
  rw [saveData_missing_dir_eq dirname cwd fs filename data h1 h2 h3 h4]
  refine ⟨List.mem_cons_self _ _, ?_, rfl⟩
  rw [dirOf_dataPath dirname filename h4]
  exact append_right_ne h3 "/data"

/-- Claim C9, witness at a concrete input. -/
theorem saveData_creates_wrong_directory_witness :
    ("/app" ++ "/data") ∉ FS.dirs ⟨["/app", "/run"], []⟩ ∧
    ("/run" ++ "/data") ∉ FS.dirs ⟨["/app", "/run"], []⟩ ∧
    ("/run" : String) ≠ "/app" ∧
    '/' ∉ ("links" : String).data ∧
    (let out := saveData "/app" "/run" ⟨["/app", "/run"], []⟩ "links" []
     ("/run" ++ "/data") ∈ out.fs.dirs ∧
     ("/run" ++ "/data") ≠ dirOf (dataPath "/app" "links") ∧
     out.writeOk = false) :=
  ⟨by decide, by decide, by decide, by decide,
    saveData_creates_wrong_directory "/app" "/run" ⟨["/app", "/run"], []⟩ "links" []
      (by decide) (by decide) (by decide) (by decide)⟩

/-- Claim C1, witness for the amended theorem at a concrete input. -/
theorem resolve_fetch_failure_witness :
    noNet "http://example.com/" = none ∧
    FS.existsFile ⟨["/app"], []⟩ (cachePath "/app" "http://example.com/") = false ∧
    ((fetchFromWebOrCache trivialParse noNet "/app" ⟨["/app"], []⟩
        "http://example.com/" false).doc = some (trivialParse none) ∧
      (fetchFromWebOrCache trivialParse noNet "/app" ⟨["/app"], []⟩
        "http://example.com/" false).fs = ⟨["/app"], []⟩) :=
  ⟨rfl, rfl,
    resolve_fetch_failure trivialParse noNet "/app" ⟨["/app"], []⟩
      "http://example.com/" false rfl rfl⟩

end Scraper
